import Mathlib

/-!
Verification of the rule-inspector chat core (RuleChatPopup / RuleJsonPopup)
against its natural-language specification.

The JavaScript source is shallowly embedded below.  JavaScript string
operations are modelled by explicit structural recursions on `List Char`
(wrapped into `String`), so that every definition evaluates by `decide`
and `rfl`.  Each definition's doc comment names the source expression it
embeds.
-/

/-- Model of the JavaScript whitespace class `\s` restricted to the ASCII
whitespace characters that occur in this code base (space, tab, LF, CR,
vertical tab, form feed). -/
def isJsWhitespace (c : Char) : Bool :=
  c == ' ' || c == '\t' || c == '\n' || c == '\r' || c == '\x0b' || c == '\x0c'

/-- Model of JavaScript `String.prototype.trim()`: drop whitespace from both
ends. -/
def trimJs (s : String) : String :=
  String.mk (((s.data.dropWhile isJsWhitespace).reverse.dropWhile isJsWhitespace).reverse)

/-- Auxiliary for `splitPred`: accumulate the current field (reversed) while
scanning the character list. -/
def splitPredAux (p : Char → Bool) : List Char → List Char → List (List Char)
  | [], acc => [acc.reverse]
  | c :: rest, acc =>
    if p c then acc.reverse :: splitPredAux p rest []
    else splitPredAux p rest (c :: acc)

/-- Model of JavaScript `String.prototype.split` on a single-character
separator class (e.g. `split('|')`, `split(/\n|\r/)`): split at every
character satisfying `p`, keeping empty fields. -/
def splitPred (p : Char → Bool) (s : String) : List String :=
  (splitPredAux p s.data []).map String.mk

/-- Auxiliary for `splitLinesCRLF`: split at every `'\n'`, additionally
dropping a `'\r'` that immediately precedes the `'\n'` (the JavaScript
regex `/\r?\n/`). The accumulator holds the current field reversed. -/
def splitCRLFAux : List Char → List Char → List (List Char)
  | [], acc => [acc.reverse]
  | '\n' :: rest, acc =>
    (match acc with
     | '\r' :: acc2 => acc2.reverse
     | _ => acc.reverse) :: splitCRLFAux rest []
  | c :: rest, acc => splitCRLFAux rest (c :: acc)

/-- Model of JavaScript `split(/\r?\n/)`. -/
def splitLinesCRLF (s : String) : List String :=
  (splitCRLFAux s.data []).map String.mk

/-- Model of JavaScript `String.prototype.startsWith` with a one-character
argument, e.g. `line.startsWith('|')`. -/
def startsWithChar (s : String) (c : Char) : Bool :=
  match s.data with
  | [] => false
  | d :: _ => d == c

/-- Model of the JavaScript test `/^[a-zA-Z0-9]/.test(line)`: the first
character is an ASCII letter or digit. -/
def headIsAlnum (s : String) : Bool :=
  match s.data with
  | [] => false
  | c :: _ => c.isAlpha || c.isDigit

/-- Model of JavaScript `Array.prototype.join(', ')` on a list of strings. -/
def joinComma : List String → String
  | [] => ""
  | x :: xs => xs.foldl (fun acc s => acc ++ ", " ++ s) x

/-- A WAF rule as far as this component reads it: `id`, the lowercase `name`
and the capitalised `Name` field (absent JavaScript fields are modelled by
the empty string, which is exactly the falsy case the code tests for). -/
structure Rule where
  id : String
  name : String
  Name : String
deriving DecidableEq, Repr

/-- A graph edge; `source` and `target` are stringified positional indices
into the rule list. -/
structure Edge where
  source : String
  target : String
deriving DecidableEq, Repr

/-- Model of `String(rule?.id || '')` (part_002 line 102) for string-valued
ids: `undefined` and the empty string are falsy and give `''`. -/
def ruleIdOf : Option Rule → String
  | none => ""
  | some r => if r.id = "" then "" else r.id

/-- `edges.filter(e => String(e.target) === ruleId).map(e => String(e.source))`
(part_002 line 103). -/
def parentIdsOf (edges : List Edge) (rid : String) : List String :=
  (edges.filter (fun e => e.target == rid)).map (·.source)

/-- `edges.filter(e => String(e.source) === ruleId).map(e => String(e.target))`
(part_002 line 104). -/
def childIdsOf (edges : List Edge) (rid : String) : List String :=
  (edges.filter (fun e => e.source == rid)).map (·.target)

/-- `allRules.filter((r, index) => ids.includes(String(index)))`
(part_002 lines 107-108): keep the rules whose positional index occurs in
the id list. -/
def rulesAtIds (allRules : List Rule) (ids : List String) : List Rule :=
  ((allRules.enum).filter (fun p => ids.contains (toString p.1))).map (·.2)

/-- `parentRules` of part_002 line 107. -/
def parentRulesOf (allRules : List Rule) (edges : List Edge) (rid : String) : List Rule :=
  rulesAtIds allRules (parentIdsOf edges rid)

/-- `childRules` of part_002 line 108. -/
def childRulesOf (allRules : List Rule) (edges : List Edge) (rid : String) : List Rule :=
  rulesAtIds allRules (childIdsOf edges rid)

/-- `parentRules.map(r => r.Name).join(', ') || 'None'` (part_002 line 110);
the empty join is falsy and defaults to the literal string `"None"`. -/
def parentNamesOf (allRules : List Rule) (edges : List Edge) (rid : String) : String :=
  let joined := joinComma ((parentRulesOf allRules edges rid).map (·.Name))
  if joined = "" then "None" else joined

/-- `childRules.map(r => r.Name).join(', ') || 'None'` (part_002 line 111). -/
def childNamesOf (allRules : List Rule) (edges : List Edge) (rid : String) : String :=
  let joined := joinComma ((childRulesOf allRules edges rid).map (·.Name))
  if joined = "" then "None" else joined

/-- The two-rule list of spec §8: rule `A` at index 0 (id "0"), rule `B` at
index 1 (id "1"). -/
def rulesAB : List Rule := [Rule.mk "0" "" "A", Rule.mk "1" "" "B"]

/-- The single spec §8 edge from index 0 to index 1. -/
def edgeAB : Edge := Edge.mk "0" "1"

/-- C5: For edges `[{source:"0", target:"1"}]` and rules `[A, B]`, resolving
relationships for the rule at index 1 yields parents `"A"` and children
`"None"`, and for the rule at index 0 parents `"None"` and children `"B"`. -/
theorem relationship_resolution_example :
    parentNamesOf rulesAB [edgeAB] (ruleIdOf (some (Rule.mk "1" "" "B"))) = "A"
  ∧ childNamesOf rulesAB [edgeAB] (ruleIdOf (some (Rule.mk "1" "" "B"))) = "None"
  ∧ parentNamesOf rulesAB [edgeAB] (ruleIdOf (some (Rule.mk "0" "" "A"))) = "None"
  ∧ childNamesOf rulesAB [edgeAB] (ruleIdOf (some (Rule.mk "0" "" "A"))) = "B" := by
  decide

/-- C6 counterexample: listing the edge `{source:"0", target:"1"}` twice does
NOT duplicate the parent name — resolution filters the rule list by index
membership, so the parent name list for rule 1 is `"A"`, not `"A, A"`. -/
theorem duplicate_edge_no_duplicate_name :
    parentNamesOf rulesAB [edgeAB, edgeAB] "1" = "A"
  ∧ parentNamesOf rulesAB [edgeAB, edgeAB] "1" ≠ "A, A" := by
  decide

/-- C6 amended: duplicate edges are collapsed by the resolver — repeating an
edge leaves the resolved parent names unchanged, because membership of an
index in the parent-id list does not depend on multiplicity. -/
theorem duplicate_edge_irrelevant (allRules : List Rule) (s t rid : String) :
    parentNamesOf allRules [Edge.mk s t, Edge.mk s t] rid
      = parentNamesOf allRules [Edge.mk s t] rid
  ∧ parentNamesOf rulesAB [edgeAB, edgeAB] "1" = "A" := by
  constructor
  · have hcont : ∀ (x : String),
        (parentIdsOf [Edge.mk s t, Edge.mk s t] rid).contains x
          = (parentIdsOf [Edge.mk s t] rid).contains x := by
      intro x
      by_cases h : (t == rid) = true
      · by_cases h2 : (x == s) = true <;>
          simp [parentIdsOf, List.filter, h, List.contains, List.elem, h2]
      · simp [parentIdsOf, List.filter, h]
    have hfilter : List.filter
          (fun p => (parentIdsOf [Edge.mk s t, Edge.mk s t] rid).contains (toString p.1))
          allRules.enum
        = List.filter (fun p => (parentIdsOf [Edge.mk s t] rid).contains (toString p.1))
          allRules.enum := by
      apply List.filter_congr
      intro p _
      exact hcont (toString p.1)
    simp only [parentNamesOf, parentRulesOf, rulesAtIds, hfilter]
  · decide

/-- The five values of the scroll-speed select (part_002 lines 484-488). -/
inductive ScrollSpeed
  | slow
  | normal
  | fast
  | instant
  | none
deriving DecidableEq, Repr

/-- The object-literal lookup `{slow: 24.0, normal: 12.0, fast: 8.0,
instant: 0}[scrollSpeed]` (part_002 lines 126-131); `none` misses the table.
The tabulated values are whole numbers of milliseconds per character, so
`Nat` represents them exactly. -/
def baseDurationLookup : ScrollSpeed → Option Nat
  | .slow => some 24
  | .normal => some 12
  | .fast => some 8
  | .instant => some 0
  | .none => Option.none

/-- `({...}[scrollSpeed]) || 12.0` (part_002 line 131): in JavaScript both a
missing key (`undefined`) and the looked-up value `0` are falsy, so each
falls back to the default `12.0`. -/
def baseDurationPerChar (speed : ScrollSpeed) : Nat :=
  match baseDurationLookup speed with
  | some n => if n = 0 then 12 else n
  | Option.none => 12

/-- `scrollSpeed === 'instant' ? 0 : Math.max(8000, responseLength *
baseDurationPerChar)` (part_002 line 133). -/
def scrollDuration (speed : ScrollSpeed) (responseLength : Nat) : Nat :=
  if speed = .instant then 0 else max 8000 (responseLength * baseDurationPerChar speed)

/-- C9: for a fixed profile the scroll duration is monotonically
non-decreasing in the response length; for the slow, normal and fast
profiles it is `max 8000 (length * perChar)` with per-character constants
24, 12 and 8, hence never below 8000 ms; and for `instant` it is 0
regardless of length. -/
theorem scrollDuration_spec (s : ScrollSpeed) (n m : Nat) (h : n ≤ m) :
    scrollDuration s n ≤ scrollDuration s m
  ∧ scrollDuration .slow n = max 8000 (n * 24)
  ∧ scrollDuration .normal n = max 8000 (n * 12)
  ∧ scrollDuration .fast n = max 8000 (n * 8)
  ∧ (s = .slow ∨ s = .normal ∨ s = .fast → 8000 ≤ scrollDuration s n)
  ∧ scrollDuration .instant n = 0 := by
  refine ⟨?_, ?_, ?_, ?_, ?_, ?_⟩
  · cases s <;>
      simp only [scrollDuration, baseDurationPerChar, baseDurationLookup] <;>
      first
        | rfl
        | exact max_le_max (le_refl 8000) (Nat.mul_le_mul_right _ h)
  · simp [scrollDuration, baseDurationPerChar, baseDurationLookup]
  · simp [scrollDuration, baseDurationPerChar, baseDurationLookup]
  · simp [scrollDuration, baseDurationPerChar, baseDurationLookup]
  · rintro (rfl | rfl | rfl) <;>
      simp [scrollDuration, baseDurationPerChar, baseDurationLookup, Nat.le_max_left]
  · simp [scrollDuration]

/-- C9 witness: the scroll-duration facts at the concrete lengths 3 ≤ 500. -/
theorem scrollDuration_spec_witness :
    (3 ≤ 500)
  ∧ (scrollDuration .slow 3 ≤ scrollDuration .slow 500
     ∧ scrollDuration .slow 3 = max 8000 (3 * 24)
     ∧ scrollDuration .normal 3 = max 8000 (3 * 12)
     ∧ scrollDuration .fast 3 = max 8000 (3 * 8)
     ∧ (ScrollSpeed.slow = .slow ∨ ScrollSpeed.slow = .normal ∨ ScrollSpeed.slow = .fast →
          8000 ≤ scrollDuration .slow 3)
     ∧ scrollDuration .instant 3 = 0) :=
  ⟨by decide, scrollDuration_spec .slow 3 500 (by decide)⟩

/-- Whether `pat` occurs at the head of `text` (both as character lists). -/
def matchesAt : List Char → List Char → Bool
  | [], _ => true
  | _ :: _, [] => false
  | p :: ps, t :: ts => p == t && matchesAt ps ts

/-- Auxiliary for counting the non-overlapping occurrences found by a global
JavaScript regex scan: `skip` counts characters still covered by the last
match (the regex engine resumes at `lastIndex`). Structural on the text. -/
def countOccAux (pat : List Char) : List Char → Nat → Nat
  | [], _ => 0
  | c :: rest, 0 =>
    if matchesAt pat (c :: rest) then 1 + countOccAux pat rest (pat.length - 1)
    else countOccAux pat rest 0
  | _ :: rest, skip + 1 => countOccAux pat rest skip

/-- Model of `(json.match(new RegExp(searchTerm, 'gi')) || []).length`
(RuleJsonPopup.jsx lines 19-20 and 71) for search terms without regex
metacharacters: the number of non-overlapping, case-insensitive occurrences
of the term in the text, scanning left to right. -/
def countMatchesCI (json term : String) : Nat :=
  countOccAux (term.data.map Char.toLower) (json.data.map Char.toLower) 0

/-- The two navigation directions of `handleMatchNavigation`
(RuleJsonPopup.jsx lines 63-68). -/
inductive NavDirection
  | next
  | prev
deriving DecidableEq, Repr

/-- Model of `handleMatchNavigation` (RuleJsonPopup.jsx lines 17-37) as a
function from the current match index to the new one: an empty text or
term returns early (`!json || !searchTerm`), zero matches return early, and
otherwise NEXT maps `prev` to `(prev + 1) % matches.length` and PREV maps
it to `(prev - 1 + matches.length) % matches.length` (the operand is
non-negative, so JavaScript `%` agrees with `Nat` remainder). -/
def handleMatchNavigation (json term : String) (dir : NavDirection) (prev : Nat) : Nat :=
  if json == "" || term == "" then prev
  else
    let n := countMatchesCI json term
    if n = 0 then prev
    else
      match dir with
      | .next => (prev + 1) % n
      | .prev => (prev + n - 1) % n

/-- Model of the match-position display (RuleJsonPopup.jsx lines 70-73):
`totalMatches` is 0 for an empty term, and the label is
`"<1-based index> / <count>"` when matches exist, else `"0 / 0"`. -/
def matchDisplay (json term : String) (idx : Nat) : String :=
  let totalMatches := if term == "" then 0 else countMatchesCI json term
  if totalMatches > 0 then toString (idx + 1) ++ " / " ++ toString totalMatches
  else "0 / 0"

/-- Iterating the successor-mod-`n` step `k` times from `i < n` lands on
`(i + k) % n`. -/
theorem iterate_succ_mod (n : Nat) (hn : 0 < n) (k i : Nat) (hi : i < n) :
    (fun x => (x + 1) % n)^[k] i = (i + k) % n := by
  induction k generalizing i with
  | zero => simpa using (Nat.mod_eq_of_lt hi).symm
  | succ k ih =>
    rw [Function.iterate_succ_apply]
    have h1 : ((i + 1) % n + k) % n = (i + 1 + k) % n := Nat.mod_add_mod (i + 1) n k
    rw [ih ((i + 1) % n) (Nat.mod_lt _ hn), h1]
    ring_nf

/-- C10: with at least one match, applying NEXT `N` times (`N` = match
count) from any reachable index returns to that index, and PREV from index
0 yields `N - 1`; with an empty term or zero matches both navigations are
no-ops; the display reads "0 / 0" exactly when the term is empty or
matches are absent, and `"<1-based index> / <count>"` otherwise. -/
theorem matchNavigation_spec (json term : String) (i : Nat) :
    (term = "" → handleMatchNavigation json term .next i = i
               ∧ handleMatchNavigation json term .prev i = i)
  ∧ (countMatchesCI json term = 0 → handleMatchNavigation json term .next i = i
               ∧ handleMatchNavigation json term .prev i = i)
  ∧ (json ≠ "" → term ≠ "" → 0 < countMatchesCI json term →
       i < countMatchesCI json term →
       (fun k => handleMatchNavigation json term .next k)^[countMatchesCI json term] i = i)
  ∧ (json ≠ "" → term ≠ "" → 0 < countMatchesCI json term →
       handleMatchNavigation json term .prev 0 = countMatchesCI json term - 1)
  ∧ (term = "" ∨ countMatchesCI json term = 0 → matchDisplay json term i = "0 / 0")
  ∧ (term ≠ "" → 0 < countMatchesCI json term →
       matchDisplay json term i = toString (i + 1) ++ " / " ++ toString (countMatchesCI json term)) := by
  refine ⟨?_, ?_, ?_, ?_, ?_, ?_⟩
  · intro ht
    constructor <;> simp [handleMatchNavigation, ht]
  · intro hn
    by_cases hj : (json == "") = true
    · constructor <;> simp [handleMatchNavigation, hj]
    · by_cases ht : (term == "") = true
      · constructor <;> simp [handleMatchNavigation, ht]
      · constructor <;> simp [handleMatchNavigation, hj, ht, hn]
  · intro hj ht hn hi
    have hstep : (fun k => handleMatchNavigation json term .next k)
        = fun k => (k + 1) % countMatchesCI json term := by
      funext k
      simp [handleMatchNavigation, hj, ht, Nat.pos_iff_ne_zero.mp hn]
    rw [hstep, iterate_succ_mod _ hn _ _ hi, Nat.add_mod_right, Nat.mod_eq_of_lt hi]
  · intro hj ht hn
    have hlt : countMatchesCI json term - 1 < countMatchesCI json term := by omega
    simp only [handleMatchNavigation, beq_iff_eq, hj, ht, Bool.or_self,
      Nat.pos_iff_ne_zero.mp hn, if_false]
    simp [hj, ht, Nat.pos_iff_ne_zero.mp hn, Nat.zero_add, Nat.mod_eq_of_lt hlt]
  · rintro (ht | hn)
    · simp [matchDisplay, ht]
    · by_cases ht : (term == "") = true
      · simp [matchDisplay, ht]
      · simp [matchDisplay, ht, hn]
  · intro ht hn
    simp [matchDisplay, ht, hn]

/-- C10 witness: for the text "abcabc" and the case-insensitive term "ABC"
there are 2 matches; NEXT applied twice from index 0 returns to 0, PREV
from 0 gives 1, and the display reads "1 / 2". -/
theorem matchNavigation_spec_witness :
    (fun k => handleMatchNavigation "abcabc" "ABC" .next k)^[countMatchesCI "abcabc" "ABC"] 0 = 0
  ∧ handleMatchNavigation "abcabc" "ABC" .prev 0 = countMatchesCI "abcabc" "ABC" - 1
  ∧ matchDisplay "abcabc" "ABC" 0
      = toString (0 + 1) ++ " / " ++ toString (countMatchesCI "abcabc" "ABC")
  ∧ matchDisplay "abcabc" "" 0 = "0 / 0" :=
  ⟨(matchNavigation_spec "abcabc" "ABC" 0).2.2.1 (by decide) (by decide) (by decide) (by decide),
   (matchNavigation_spec "abcabc" "ABC" 0).2.2.2.1 (by decide) (by decide) (by decide),
   (matchNavigation_spec "abcabc" "ABC" 0).2.2.2.2.2 (by decide) (by decide),
   ((matchNavigation_spec "abcabc" "" 0).2.2.2.2.1 (Or.inl rfl))⟩

/-- Header/rows result of `parseMarkdownTable` (part_002 lines 21-27). -/
structure MarkdownTable where
  header : List String
  rows : List (List String)
deriving DecidableEq, Repr

/-- `line.split('|').map(cell => cell.trim()).filter(Boolean)` (part_002
lines 24-25): split a table line on `'|'`, trim each cell, drop the empty
(falsy) cells. -/
def splitCells (line : String) : List String :=
  ((splitPred (fun c => c == '|') line).map trimJs).filter (fun s => s ≠ "")

/-- `md.trim().split(/\r?\n/).filter(line => line.trim().startsWith('|'))`
(part_002 line 22): the lines of the (outer-trimmed) text whose trimmed
form starts with `'|'`. -/
def tableLines (md : String) : List String :=
  (splitLinesCRLF (trimJs md)).filter (fun line => startsWithChar (trimJs line) '|')

/-- `parseMarkdownTable` (part_002 lines 21-27): fail (`null`) when fewer
than two table lines exist; otherwise the header comes from the first table
line, the second is skipped as the separator (`lines.slice(2)`), and every
remaining line becomes a body row. -/
def parseMarkdownTable (md : String) : Option MarkdownTable :=
  match tableLines md with
  | l0 :: _ :: rest => some (MarkdownTable.mk (splitCells l0) (rest.map splitCells))
  | _ => Option.none

/-- Result of `renderMarkdownTable` (part_002 lines 34-57), abstracting the
JSX: either the raw text verbatim (`<span>{md}</span>`) or a structured
table. -/
inductive RenderedTable
  | raw (text : String)
  | table (t : MarkdownTable)
deriving DecidableEq, Repr

/-- `renderMarkdownTable` (part_002 lines 34-36): show the raw text when
parsing fails, otherwise the parsed table. -/
def renderMarkdownTable (md : String) : RenderedTable :=
  match parseMarkdownTable md with
  | Option.none => .raw md
  | some t => .table t

/-- C8: with fewer than two table-marked lines the parser fails and the raw
text is shown verbatim; otherwise the header is the first table-marked line
split on `'|'` with cells trimmed and empties dropped, the second line is
skipped, and each following line becomes a body row under the same split
rule; in particular "| A | B |\n|---|---|\n| 1 | 2 |" parses to header
["A","B"] and rows [["1","2"]]. -/
theorem parseMarkdownTable_spec (md : String) :
    ((tableLines md).length < 2 → renderMarkdownTable md = .raw md)
  ∧ (∀ l0 l1 rest, tableLines md = l0 :: l1 :: rest →
       parseMarkdownTable md = some (MarkdownTable.mk (splitCells l0) (rest.map splitCells)))
  ∧ parseMarkdownTable "| A | B |\n|---|---|\n| 1 | 2 |"
      = some (MarkdownTable.mk ["A", "B"] [["1", "2"]]) := by
  refine ⟨?_, ?_, by decide⟩
  · intro hlen
    rw [renderMarkdownTable, parseMarkdownTable]
    match hl : tableLines md with
    | [] => rfl
    | [_] => rfl
    | l0 :: l1 :: rest =>
      rw [hl] at hlen
      simp only [List.length_cons] at hlen
      exact absurd hlen (by omega)
  · intro l0 l1 rest hl
    rw [parseMarkdownTable, hl]

/-- C8 witness: the concrete behavior at a non-table text and at the valid
table of spec §8. -/
theorem parseMarkdownTable_spec_witness :
    renderMarkdownTable "no table here" = .raw "no table here"
  ∧ parseMarkdownTable "| A | B |\n|---|---|\n| 1 | 2 |"
      = some (MarkdownTable.mk ["A", "B"] [["1", "2"]])
  ∧ parseMarkdownTable "| A | B |\n|---|---|\n| 1 | 2 |"
      = some (MarkdownTable.mk (splitCells "| A | B |") ([ "| 1 | 2 |" ].map splitCells)) :=
  ⟨(parseMarkdownTable_spec "no table here").1 (by decide),
   (parseMarkdownTable_spec "| A | B |\n|---|---|\n| 1 | 2 |").2.2,
   (parseMarkdownTable_spec "| A | B |\n|---|---|\n| 1 | 2 |").2.1
     "| A | B |" "|---|---|" ["| 1 | 2 |"] (by decide)⟩

/-- `msg.text.split(/\n|\r/).map(line => line.trim()).filter(line => line &&
(line.startsWith('-') || line.startsWith('•') || /^[a-zA-Z0-9]/.test(line)))`
(part_002 lines 255-258): the lines kept by the bullet renderer. -/
def bulletLines (text : String) : List String :=
  ((splitPred (fun c => c == '\n' || c == '\r') text).map trimJs).filter
    (fun line => line != "" &&
      (startsWithChar line '-' || startsWithChar line '•' || headIsAlnum line))

/-- `line.replace(/^[-•]\s*/, '')` (part_002 line 262): strip one leading
bullet marker together with the whitespace following it. -/
def stripBulletMarker (line : String) : String :=
  match line.data with
  | c :: rest =>
    if c == '-' || c == '•' then String.mk (rest.dropWhile isJsWhitespace)
    else line
  | [] => line

/-- The list items emitted by the bullet branch of `renderAiMessage`
(part_002 lines 253-265): the kept lines with leading markers stripped. -/
def bulletItems (text : String) : List String :=
  (bulletLines text).map stripBulletMarker

/-- C7 counterexample: bullet rendering of
"- one\n- two\nignored blank\n\n- three" does NOT produce the 3 items
["one", "two", "three"]: the line "ignored blank" begins with an
alphanumeric character, so the inclusion heuristic keeps it. -/
theorem bullet_example_not_three_items :
    bulletItems "- one\n- two\nignored blank\n\n- three" ≠ ["one", "two", "three"] := by
  decide

/-- C7 amended: bullet rendering of "- one\n- two\nignored blank\n\n- three"
produces exactly 4 list items "one", "two", "ignored blank", "three": the
blank line is excluded, the bullet markers are stripped, but "ignored
blank" is kept by the alphanumeric-start branch of the inclusion
heuristic. -/
theorem bullet_example_four_items :
    bulletItems "- one\n- two\nignored blank\n\n- three"
      = ["one", "two", "ignored blank", "three"] := by
  decide

/-- A conversation message `{sender, text}` (part_002 lines 89-91, 198). -/
structure ChatMessage where
  sender : String
  text : String
deriving DecidableEq, Repr

/-- A role-tagged entry `{role, content}` of the outbound completion
history (part_002 lines 213-221). -/
structure RoleMessage where
  role : String
  content : String
deriving DecidableEq, Repr

/-- The completion request of part_002 lines 222-226: fixed model, ordered
history and temperature (0.3 is represented exactly by the rational
3/10). -/
structure CompletionRequest where
  model : String
  messages : List RoleMessage
  temperature : ℚ
deriving DecidableEq, Repr

/-- The chat state mutated by `sendMessage`: the message list, the input
field and the loading flag (part_002 lines 89-93). -/
structure ChatState where
  messages : List ChatMessage
  input : String
  loading : Bool
deriving DecidableEq, Repr

/-- The props and settings `sendMessage` reads (part_002 lines 84, 94-95):
the focused rule, the rule list, the edge list, the response style and the
`seeAllRules` switch. `stringifyRules` abstracts
`JSON.stringify(contextRules, null, 2)`, whose output no claim inspects;
`[rule]` with an absent rule serialises `[null]`, hence the `Option`. -/
structure ChatConfig where
  rule : Option Rule
  allRules : List Rule
  edges : List Edge
  responseStyle : String
  seeAllRules : Bool
  stringifyRules : List (Option Rule) → String

/-- The synthetic greeting seeding every conversation (part_002 line 90). -/
def greetingText : String :=
  "Hi! Ask me anything about this rule and I will help you understand or improve it."

/-- The fixed apology appended when the completion call fails (part_002
line 230). -/
def apologyText : String :=
  "Sorry, I could not get a response from the AI."

/-- The `styleInstructions` object literal (part_002 lines 7-14) as a
lookup. -/
def styleInstructionsLookup (style : String) : Option String :=
  if style = "concise" then some "Summarize each rule briefly."
  else if style = "detailed" then some "Provide a detailed, step-by-step explanation for each rule."
  else if style = "table" then some "Return your answer as a markdown table, no extra text."
  else if style = "bullet" then some "Return your answer as a list of bullet points, one per line, no extra text."
  else if style = "human" then some "Explain the rules in simple, non-technical language."
  else if style = "json" then some "Return only a JSON object as specified."
  else Option.none

/-- `styleInstructions[responseStyle] || styleInstructions.concise`
(part_002 line 207); every table entry is a non-empty (truthy) string, so
only a missing key falls back. -/
def styleInstructionOf (style : String) : String :=
  match styleInstructionsLookup style with
  | some s => s
  | Option.none => "Summarize each rule briefly."

/-- Model of `parseInt(s, 10)` for the id strings of this data set (a run
of leading ASCII digits, else NaN). -/
def parseIntLeading (s : String) : Option Nat :=
  let ds := s.data.takeWhile Char.isDigit
  if ds.isEmpty then Option.none
  else some (ds.foldl (fun n c => n * 10 + (c.toNat - 48)) 0)

/-- `currentRuleInfo` (part_002 line 208): a focused-rule sentence when
`rule?.id` is truthy, else the general sentence; `rule.name || rule.Name ||
'Unknown Rule'` picks the first truthy (non-empty) name. -/
def currentRuleInfoOf (rule : Option Rule) : String :=
  match rule with
  | some r =>
    if r.id ≠ "" then
      "The user is currently focused on rule #" ++
        (match parseIntLeading r.id with
         | some n => toString (n + 1)
         | Option.none => "NaN") ++
        ": " ++
        (if r.name ≠ "" then r.name else if r.Name ≠ "" then r.Name else "Unknown Rule")
    else "The user is asking about their WAF rules in general."
  | Option.none => "The user is asking about their WAF rules in general."

/-- `dependencyInfo` (part_002 line 209), built from the resolved parent
and child names. -/
def dependencyInfoOf (cfg : ChatConfig) : String :=
  "Parent rules: " ++ parentNamesOf cfg.allRules cfg.edges (ruleIdOf cfg.rule) ++
  ". Child rules: " ++ childNamesOf cfg.allRules cfg.edges (ruleIdOf cfg.rule) ++
  ". When asked about dependencies, always use the provided parent and child rule information, not your own analysis."

/-- `relationshipInstruction` (part_002 line 210). -/
def relationshipInstruction : String :=
  "\nIf the user asks about the relationship between the current rule and another rule, check if that rule is listed as a parent or child. If it is a child, say \x27rule-X is a child of rule-Y.\x27 If it is a parent, say \x27rule-X is a parent of rule-Y.\x27 If it is not in either list, say there is no direct relationship."

/-- The fixed domain preamble of the system prompt (part_002 line 211), up
to and including "Style: ". -/
def systemPreamble : String :=
  "You are an expert in AWS WAF rules. The user will ask questions about their WAF rules. Always answer clearly and concisely, using the rule JSON provided. If the user asks for improvements, suggest best practices. Style: "

/-- `systemPrompt` (part_002 line 211): preamble, style directive, focused
rule sentence, dependency summary and the relationship-answering rule. -/
def systemPromptOf (cfg : ChatConfig) : String :=
  systemPreamble ++ styleInstructionOf cfg.responseStyle ++ "\n" ++
    currentRuleInfoOf cfg.rule ++ "\n" ++ dependencyInfoOf cfg ++ relationshipInstruction

/-- `contextRules` (part_002 line 212): the whole rule list when
`seeAllRules` is set (the list prop is always an array here), else just the
focused rule. -/
def contextRulesOf (cfg : ChatConfig) : List (Option Rule) :=
  if cfg.seeAllRules then cfg.allRules.map some else [cfg.rule]

/-- `chatHistory` as assembled in part_002 lines 213-221: the system
instruction, the rule-JSON message, the prior messages kept by the filter
`m.sender !== 'ai' || m.text !== chatHistory[0].content` (the baseline is
the system prompt) mapped to roles, and the new user message last. -/
def buildChatHistory (cfg : ChatConfig) (messages : List ChatMessage) (input : String) :
    List RoleMessage :=
  let sys := systemPromptOf cfg
  [RoleMessage.mk "system" sys,
   RoleMessage.mk "user" ("Rule JSON: " ++ cfg.stringifyRules (contextRulesOf cfg))]
  ++ (messages.filter (fun m => m.sender != "ai" || m.text != sys)).map
       (fun m => RoleMessage.mk (if m.sender == "user" then "user" else "assistant") m.text)
  ++ [RoleMessage.mk "user" input]

/-- `sendMessage` (part_002 lines 196-233) as a state transformer: it
returns the settled chat state and the list of gateway requests issued.
A blank (all-whitespace) input returns immediately. Otherwise the user
message is appended, one request is issued, and the response — success
text or any failure — determines the appended assistant message; the
loading flag is set for the duration of the call and cleared at the end,
and the input field is cleared. -/
def sendMessage (cfg : ChatConfig) (st : ChatState) (result : Except Unit String) :
    ChatState × List CompletionRequest :=
  if trimJs st.input = "" then (st, [])
  else
    let userMsg := ChatMessage.mk "user" st.input
    let req := CompletionRequest.mk "gpt-4o-mini"
      (buildChatHistory cfg st.messages st.input) ((3 : ℚ) / 10)
    match result with
    | .ok aiText =>
      (ChatState.mk (st.messages ++ [userMsg, ChatMessage.mk "ai" aiText]) "" false, [req])
    | .error _ =>
      (ChatState.mk (st.messages ++ [userMsg, ChatMessage.mk "ai" apologyText]) "" false, [req])

/-- The Enter-key path (part_002 line 607): `e.key === 'Enter' && !loading
&& sendMessage()` — the loading flag gates admission. -/
def attemptSendEnter (cfg : ChatConfig) (st : ChatState) (result : Except Unit String) :
    ChatState × List CompletionRequest :=
  if st.loading then (st, []) else sendMessage cfg st result

/-- The Send-button path (part_002 lines 634-636): the button is disabled
while `loading || !input.trim()`, so a click does nothing then. -/
def attemptSendClick (cfg : ChatConfig) (st : ChatState) (result : Except Unit String) :
    ChatState × List CompletionRequest :=
  if st.loading ∨ trimJs st.input = "" then (st, []) else sendMessage cfg st result

/-- String length distributes over append. -/
theorem strLenAppend (a b : String) : (a ++ b).length = a.length + b.length := by
  cases a with
  | mk da =>
    cases b with
    | mk db => simp [String.length, String.append]

set_option maxRecDepth 4096 in
/-- The greeting has 81 characters. -/
theorem greetingText_length : greetingText.length = 81 := by decide

set_option maxRecDepth 4096 in
/-- The system-prompt preamble has 220 characters. -/
theorem systemPreamble_length : systemPreamble.length = 220 := by decide

/-- The synthetic greeting can never equal the system prompt: the prompt
extends a 220-character preamble while the greeting has 81 characters. -/
theorem greeting_ne_systemPrompt (cfg : ChatConfig) : greetingText ≠ systemPromptOf cfg := by
  intro h
  have h2 : greetingText.length = (systemPromptOf cfg).length := congrArg String.length h
  rw [systemPromptOf] at h2
  simp only [strLenAppend] at h2
  rw [greetingText_length, systemPreamble_length] at h2
  omega

/-- C2: while the loading flag is set, both send paths (Enter key and Send
button) reject the attempt: the state is unchanged — in particular no user
message is appended — and no gateway request is issued. -/
theorem loading_rejects_second_send (cfg : ChatConfig) (st : ChatState)
    (result : Except Unit String) (h : st.loading = true) :
    attemptSendEnter cfg st result = (st, [])
  ∧ attemptSendClick cfg st result = (st, []) := by
  constructor <;> simp [attemptSendEnter, attemptSendClick, h]

/-- C2 witness: a concrete loading state rejects both send paths. -/
theorem loading_rejects_second_send_witness :
    attemptSendEnter
        (ChatConfig.mk (some (Rule.mk "0" "" "A")) rulesAB [edgeAB] "concise" false
          (fun _ => ""))
        (ChatState.mk [ChatMessage.mk "ai" greetingText] "hello" true) (Except.ok "x")
      = (ChatState.mk [ChatMessage.mk "ai" greetingText] "hello" true, [])
  ∧ attemptSendClick
        (ChatConfig.mk (some (Rule.mk "0" "" "A")) rulesAB [edgeAB] "concise" false
          (fun _ => ""))
        (ChatState.mk [ChatMessage.mk "ai" greetingText] "hello" true) (Except.ok "x")
      = (ChatState.mk [ChatMessage.mk "ai" greetingText] "hello" true, []) :=
  loading_rejects_second_send _ _ (Except.ok "x") rfl

/-- C3: when the completion call fails (for any reason) on a non-blank
input, `sendMessage` absorbs the error: relative to the pre-send state it
appends the user message and exactly one fixed apology message, clears the
loading flag and the input field, and issues exactly one gateway request
(no retry). -/
theorem sendMessage_failure_spec (cfg : ChatConfig) (st : ChatState)
    (h : trimJs st.input ≠ "") :
    (sendMessage cfg st (Except.error ())).1.messages
        = st.messages ++ [ChatMessage.mk "user" st.input, ChatMessage.mk "ai" apologyText]
  ∧ (sendMessage cfg st (Except.error ())).1.input = ""
  ∧ (sendMessage cfg st (Except.error ())).1.loading = false
  ∧ (sendMessage cfg st (Except.error ())).2.length = 1 := by
  simp [sendMessage, h]

/-- C3 witness: the failure behavior at a concrete state. -/
theorem sendMessage_failure_spec_witness :
    (sendMessage
        (ChatConfig.mk (some (Rule.mk "0" "" "A")) rulesAB [edgeAB] "concise" false
          (fun _ => ""))
        (ChatState.mk [ChatMessage.mk "ai" greetingText] "hello" false)
        (Except.error ())).1.messages
      = [ChatMessage.mk "ai" greetingText]
        ++ [ChatMessage.mk "user" "hello", ChatMessage.mk "ai" apologyText]
  ∧ (sendMessage
        (ChatConfig.mk (some (Rule.mk "0" "" "A")) rulesAB [edgeAB] "concise" false
          (fun _ => ""))
        (ChatState.mk [ChatMessage.mk "ai" greetingText] "hello" false)
        (Except.error ())).1.input = ""
  ∧ (sendMessage
        (ChatConfig.mk (some (Rule.mk "0" "" "A")) rulesAB [edgeAB] "concise" false
          (fun _ => ""))
        (ChatState.mk [ChatMessage.mk "ai" greetingText] "hello" false)
        (Except.error ())).1.loading = false
  ∧ (sendMessage
        (ChatConfig.mk (some (Rule.mk "0" "" "A")) rulesAB [edgeAB] "concise" false
          (fun _ => ""))
        (ChatState.mk [ChatMessage.mk "ai" greetingText] "hello" false)
        (Except.error ())).2.length = 1 :=
  sendMessage_failure_spec _ _ (by decide)

/-- C4: on a non-blank input, `sendMessage` issues exactly one request with
the fixed model "gpt-4o-mini" and temperature 0.3, whose history is ordered
exactly: system instruction, then the rule-JSON message (the entire list
when `seeAllRules` is set and just the focused rule otherwise), then the
retained prior messages in original order with sender "user" mapped to role
"user" and all other senders to "assistant", then the new user message. -/
theorem sendMessage_request_spec (cfg : ChatConfig) (st : ChatState)
    (result : Except Unit String) (h : trimJs st.input ≠ "") :
    (sendMessage cfg st result).2
      = [CompletionRequest.mk "gpt-4o-mini"
          (RoleMessage.mk "system" (systemPromptOf cfg)
            :: RoleMessage.mk "user"
                 ("Rule JSON: " ++ cfg.stringifyRules
                    (if cfg.seeAllRules then cfg.allRules.map some else [cfg.rule]))
            :: (((st.messages.filter
                   (fun m => m.sender != "ai" || m.text != systemPromptOf cfg)).map
                   (fun m => RoleMessage.mk (if m.sender == "user" then "user" else "assistant")
                     m.text))
                ++ [RoleMessage.mk "user" st.input]))
          ((3 : ℚ) / 10)] := by
  cases result <;> simp [sendMessage, h, buildChatHistory, contextRulesOf]

/-- C4 witness: the request issued from a concrete state. -/
theorem sendMessage_request_spec_witness :
    (sendMessage
        (ChatConfig.mk (some (Rule.mk "0" "" "A")) rulesAB [edgeAB] "concise" false
          (fun _ => "J"))
        (ChatState.mk [ChatMessage.mk "ai" greetingText] "hello" false)
        (Except.ok "reply")).2
      = [CompletionRequest.mk "gpt-4o-mini"
          (RoleMessage.mk "system"
              (systemPromptOf
                (ChatConfig.mk (some (Rule.mk "0" "" "A")) rulesAB [edgeAB] "concise" false
                  (fun _ => "J")))
            :: RoleMessage.mk "user"
                 ("Rule JSON: " ++
                   (ChatConfig.mk (some (Rule.mk "0" "" "A")) rulesAB [edgeAB] "concise" false
                     (fun _ => "J")).stringifyRules
                    (if (ChatConfig.mk (some (Rule.mk "0" "" "A")) rulesAB [edgeAB] "concise"
                          false (fun _ => "J")).seeAllRules
                     then rulesAB.map some else [some (Rule.mk "0" "" "A")]))
            :: ((([ChatMessage.mk "ai" greetingText].filter
                   (fun m => m.sender != "ai" ||
                     m.text != systemPromptOf
                       (ChatConfig.mk (some (Rule.mk "0" "" "A")) rulesAB [edgeAB] "concise"
                         false (fun _ => "J")))).map
                   (fun m => RoleMessage.mk (if m.sender == "user" then "user" else "assistant")
                     m.text))
                ++ [RoleMessage.mk "user" "hello"]))
          ((3 : ℚ) / 10)] :=
  sendMessage_request_spec _ _ (Except.ok "reply") (by decide)

/-- C1: whenever the first message of the conversation is the synthetic
greeting and a send goes through, every request issued forwards the
greeting as an assistant-role entry: the filter of part_002 line 218
compares message texts against the system prompt, which the greeting text
can never equal, so the greeting is never dropped. -/
theorem greeting_always_forwarded (cfg : ChatConfig) (st : ChatState)
    (result : Except Unit String)
    (hhead : st.messages.head? = some (ChatMessage.mk "ai" greetingText))
    (h : trimJs st.input ≠ "") :
    ((sendMessage cfg st result).2.all
      (fun req => req.messages.contains (RoleMessage.mk "assistant" greetingText))) = true := by
  obtain ⟨m0, ms, hm⟩ : ∃ m0 ms, st.messages = m0 :: ms := by
    cases hms : st.messages with
    | nil => rw [hms] at hhead; exact absurd hhead (by simp)
    | cons a l => exact ⟨a, l, rfl⟩
  have hm0 : m0 = ChatMessage.mk "ai" greetingText := by
    rw [hm] at hhead
    simpa using hhead
  have hne : greetingText ≠ systemPromptOf cfg := greeting_ne_systemPrompt cfg
  have hpred : ((fun (m : ChatMessage) => m.sender != "ai" || m.text != systemPromptOf cfg)
      (ChatMessage.mk "ai" greetingText)) = true := by
    simp [hne]
  have hmem : RoleMessage.mk "assistant" greetingText
      ∈ buildChatHistory cfg st.messages st.input := by
    rw [hm, hm0]
    refine List.mem_append.mpr (Or.inl (List.mem_append.mpr (Or.inr ?_)))
    refine List.mem_map.mpr ⟨ChatMessage.mk "ai" greetingText, ?_, by simp⟩
    exact List.mem_filter.mpr ⟨List.mem_cons_self _ _, hpred⟩
  cases result with
  | ok txt =>
    simp only [sendMessage, if_neg h, List.all_cons, List.all_nil, Bool.and_true]
    simpa [List.contains, List.elem_iff] using hmem
  | error e =>
    simp only [sendMessage, if_neg h, List.all_cons, List.all_nil, Bool.and_true]
    simpa [List.contains, List.elem_iff] using hmem

/-- C1 witness: the greeting is forwarded from a concrete state whose first
message is the greeting. -/
theorem greeting_always_forwarded_witness :
    ((sendMessage
        (ChatConfig.mk (some (Rule.mk "0" "" "A")) rulesAB [edgeAB] "concise" false
          (fun _ => "J"))
        (ChatState.mk [ChatMessage.mk "ai" greetingText] "hello" false)
        (Except.ok "reply")).2.all
      (fun req => req.messages.contains (RoleMessage.mk "assistant" greetingText))) = true :=
  greeting_always_forwarded _ _ (Except.ok "reply") rfl (by decide)
